import Mathlib

/-!
Verification of the receipt-ingestion core of `src/servers/receipt_ocr_server.py`.

The Python module is shallowly embedded: JSON values (as produced by
`json.loads` / consumed by `json.dumps`) become the inductive `Json`;
the durable category store `categories.json` becomes the state type `Store`
(the file may be absent, hold a parsed JSON document, or be unreadable);
the Google Sheets spreadsheet becomes an in-memory list of rows, and the
Sheets API append call is modelled as concatenating the batch onto it and
succeeding; the Gemini model calls and the image file read are modelled as
oracle arguments of type `Except String String` (the text they produce, or
the exception they raise).  Python code that can raise is embedded as
`Except String`-valued functions whose `.error` case carries the exception
message; a `try/except` block becomes a `match` converting `.error` into the
returned error payload.

Modelling conventions (noted where they matter):
* JSON numbers are modelled as integers.  None of the embedded code performs
  arithmetic on prices — they are only copied — so this only restricts which
  concrete receipts are expressible, not what the code does with them.
* String escaping inside `json.dumps` is not modelled; the strings appearing
  in the claims contain no characters that would be escaped.  Python renders
  a `dict` or `set` inside an f-string with single quotes and (for sets)
  hash-dependent order; the embedding renders them with double quotes in
  source order, which no claim depends on.
* Exception message texts are abbreviated (for example
  "AttributeError: object has no attribute get"); no claim depends on the
  exact wording of an exception message, only on which payload is built.
-/

namespace ReceiptOcr

/-- JSON values, the result of Python `json.loads` and the input of
`json.dumps`.  Numbers are modelled as integers (see module comment). -/
inductive Json where
  | null
  | bool (b : Bool)
  | num (n : Int)
  | str (s : String)
  | arr (xs : List Json)
  | obj (fields : List (String × Json))

/-- Decimal digits of a natural number, most significant first
(the rendering Python `str` gives a nonnegative int). -/
def natDigits (n : Nat) : List Char :=
  if n < 10 then [Char.ofNat (48 + n)]
  else natDigits (n / 10) ++ [Char.ofNat (48 + n % 10)]
termination_by n
decreasing_by
  simp_wf
  omega

/-- Python `str` of a nonnegative integer. -/
def natRepr (n : Nat) : String := String.mk (natDigits n)

/-- Python `str` of an integer (also how `json.dumps` renders it). -/
def intRepr : Int → String
  | .ofNat m => natRepr m
  | .negSucc m => "-" ++ natRepr (m + 1)

mutual

/-- Model of Python `json.dumps` (compact form; the `indent=2` whitespace
used by the tools is not modelled, and no claim observes whitespace). -/
def Json.dumps : Json → String
  | .null => "null"
  | .bool true => "true"
  | .bool false => "false"
  | .num n => intRepr n
  | .str s => "\"" ++ s ++ "\""
  | .arr xs => "[" ++ Json.dumpsArr xs ++ "]"
  | .obj fs => "\x7b" ++ Json.dumpsObj fs ++ "\x7d"

/-- Comma-joined serialization of the elements of a JSON array. -/
def Json.dumpsArr : List Json → String
  | [] => ""
  | [j] => Json.dumps j
  | j :: rest => Json.dumps j ++ ", " ++ Json.dumpsArr rest

/-- Comma-joined serialization of the fields of a JSON object. -/
def Json.dumpsObj : List (String × Json) → String
  | [] => ""
  | [(k, v)] => "\"" ++ k ++ "\": " ++ Json.dumps v
  | (k, v) :: rest => "\"" ++ k ++ "\": " ++ Json.dumps v ++ ", " ++ Json.dumpsObj rest

end

/-! ## Python dynamic semantics helpers -/

/-- Whether a JSON value is the Python string `x` (Python `==` between a
string and a non-string JSON value is `False`). -/
def isStrVal (x : String) (j : Json) : Bool :=
  match j with
  | .str t => t == x
  | _ => false

/-- Auxiliary substring scan over character lists. -/
def strInAux (needle : List Char) : List Char → Bool
  | [] => needle.isEmpty
  | c :: rest => List.isPrefixOf needle (c :: rest) || strInAux needle rest

/-- Python substring test `sub in hay` on strings. -/
def pyStrContains (hay sub : String) : Bool := strInAux sub.data hay.data

/-- Python `k in data` where `data` is a parsed JSON value: key membership
for dicts, element membership for lists, substring test for strings, and a
`TypeError` for values that are not iterable (numbers, booleans, null). -/
def pyContainsKey (data : Json) (k : String) : Except String Bool :=
  match data with
  | .obj fields => .ok ((fields.lookup k).isSome)
  | .arr xs => .ok (xs.any (isStrVal k))
  | .str t => .ok (pyStrContains t k)
  | _ => .error "TypeError: argument is not iterable"

/-- Python `data[k]` with a string key: dict lookup (`KeyError` when the key
is absent), `TypeError` for every other JSON value. -/
def pySubscript (data : Json) (k : String) : Except String Json :=
  match data with
  | .obj fields =>
    match fields.lookup k with
    | some v => .ok v
    | none => .error "KeyError"
  | _ => .error "TypeError: value is not subscriptable by a string"

/-- Python `data.get(k, default)`: dict lookup with a default,
`AttributeError` when `data` is not a dict. -/
def pyDictGet (data : Json) (k : String) (d : Json) : Except String Json :=
  match data with
  | .obj fields => .ok ((fields.lookup k).getD d)
  | _ => .error "AttributeError: object has no attribute get"

/-- Python `x in v` for a string `x` against an arbitrary JSON value `v`,
as used on the loaded category collection by `add_category` /
`remove_category`. -/
def pyStrInValue (x : String) (v : Json) : Except String Bool :=
  match v with
  | .obj fields => .ok ((fields.lookup x).isSome)
  | .arr xs => .ok (xs.any (isStrVal x))
  | .str t => .ok (pyStrContains t x)
  | _ => .error "TypeError: argument is not iterable"

/-- Python `list.remove(x)` for a string `x`: drop the first element equal
to `x` (only called under a successful membership test). -/
def pyListRemoveStr : List Json → String → List Json
  | [], _ => []
  | j :: rest, x => if isStrVal x j then rest else j :: pyListRemoveStr rest x

/-! ## Category storage (`categories.json`), lines 39-61 of the source -/

/-- State of the durable category store `categories.json`: the file may be
absent, may hold a parsed JSON document, or may exist but fail to parse
(`json.load` raises; the constructor carries the exception message). -/
inductive Store where
  | absent
  | content (j : Json)
  | unreadable (msg : String)

/-- The fixed default category list created by `load_categories` when the
store file does not exist (source lines 44-50). -/
def DEFAULT_CATEGORIES : List String :=
  ["Snacks", "Vegetables", "Meat", "Clothes",
   "Makeup/Skincare", "Condiments", "Dairy",
   "Beverages", "Bakery"]

/-- `load_categories` (source lines 41-57): if the file is absent, write the
default document and return its category list; otherwise parse the file
(raising when it is unreadable) and return `data.get("categories", [])`.
Returns the loaded value together with the store state after the call. -/
def load_categories (s : Store) : Except String (Json × Store) :=
  match s with
  | .absent =>
    .ok (Json.arr (DEFAULT_CATEGORIES.map Json.str),
         Store.content (Json.obj [("categories", Json.arr (DEFAULT_CATEGORIES.map Json.str))]))
  | .unreadable msg => .error msg
  | .content j =>
    match j with
    | .obj fields => .ok ((fields.lookup "categories").getD (Json.arr []), Store.content j)
    | _ => .error "AttributeError: object has no attribute get"

/-- `save_categories` (source lines 59-61): overwrite the store with the
document `{"categories": categories}`. -/
def save_categories (categories : Json) : Store :=
  Store.content (Json.obj [("categories", categories)])

/-! ## `SheetsTool.append_receipt`, source lines 129-176 -/

/-- The row built for one line item (source lines 158-164):
`[date, vendor, li.get("item",""), li.get("price",""), li.get("category","")]`. -/
def buildRows (date vendor : Json) : List Json → Except String (List (List Json))
  | [] => .ok []
  | li :: rest => do
    let item ← pyDictGet li "item" (Json.str "")
    let price ← pyDictGet li "price" (Json.str "")
    let cat ← pyDictGet li "category" (Json.str "")
    let rows ← buildRows date vendor rest
    .ok ([date, vendor, item, price, cat] :: rows)

/-- `SheetsTool.append_receipt` (source lines 129-176): build one row per
line item of `data.get("line_items", [])` — with no merging of any kind —
append the batch to the sheet, and return
`{"status": "success", "rows_added": len(values)}`.  The Sheets API call is
modelled as concatenating the batch onto the in-memory sheet and
succeeding.  A non-list `line_items` value mirrors Python iteration:
iterating a nonempty string or dict reaches `li.get` on a non-dict element
and raises `AttributeError`, an empty string or dict yields no rows, and
other values raise `TypeError`. -/
def append_receipt (data : Json) (sheet : List (List Json)) :
    Except String (List (List Json) × Json) := do
  let vendor ← pyDictGet data "vendor" (Json.str "")
  let date ← pyDictGet data "date" (Json.str "")
  let liv ← pyDictGet data "line_items" (Json.arr [])
  match liv with
  | .arr items => do
    let values ← buildRows date vendor items
    .ok (sheet ++ values,
         Json.obj [("status", Json.str "success"),
                   ("rows_added", Json.num (Int.ofNat values.length))])
  | .str t =>
    if t.data.isEmpty then
      .ok (sheet, Json.obj [("status", Json.str "success"), ("rows_added", Json.num 0)])
    else .error "AttributeError: object has no attribute get"
  | .obj lf =>
    if lf.isEmpty then
      .ok (sheet, Json.obj [("status", Json.str "success"), ("rows_added", Json.num 0)])
    else .error "AttributeError: object has no attribute get"
  | _ => .error "TypeError: object is not iterable"

/-! ## `append_to_sheet` tool, source lines 250-299 -/

/-- The required top-level keys (source line 268). -/
def expected_keys : List String := ["vendor", "date", "line_items"]

/-- The required line-item keys (source line 279). -/
def lineItemKeys : List String := ["item", "price", "category"]

/-- Python `all(k in data for k in ks)`: short-circuits on the first `False`
and propagates a `TypeError` raised by the membership test. -/
def pyAllKeysInAux (data : Json) : List String → Except String Bool
  | [] => .ok true
  | k :: rest =>
    match pyContainsKey data k with
    | .error e => .error e
    | .ok true => pyAllKeysInAux data rest
    | .ok false => .ok false

/-- The key check of source line 269: `all(k in data for k in expected_keys)`.
`expected_keys` is a Python set whose iteration order is hash-dependent; the
conjunction does not depend on the order, so the source order is used. -/
def pyAllKeysIn (data : Json) : Except String Bool :=
  pyAllKeysInAux data expected_keys

/-- Whether a line item is a dict containing all of `item`, `price`,
`category` (the test of source line 279 on a dict). -/
def lineItemHasKeys (li : Json) : Bool :=
  match li with
  | .obj lf => lineItemKeys.all (fun k => (lf.lookup k).isSome)
  | _ => false

/-- The validation loop of source lines 278-284: return the first line item
that is a dict missing one of the required keys; raise `AttributeError`
when an element is not a dict (`li.keys()` does not exist); return `none`
when every element passes. -/
def firstBadItem : List Json → Except String (Option Json)
  | [] => .ok none
  | li :: rest =>
    match li with
    | .obj lf =>
      if lineItemKeys.all (fun k => (lf.lookup k).isSome) then firstBadItem rest
      else .ok (some (Json.obj lf))
    | _ => .error "AttributeError: object has no attribute keys"

/-- Rendering of a list of key names the way the f-string of source line 271
renders the `expected_keys` set (Python uses single quotes and
hash-dependent order; double quotes and source order are used here, which
no claim depends on). -/
def pySetRepr (ks : List String) : String :=
  "\x7b" ++ Json.dumpsArr (ks.map Json.str) ++ "\x7d"

/-- The error message of source line 271.  Note that it interpolates the
whole `expected_keys` set, not the subset of keys actually missing. -/
def missingKeysMsg : String :=
  "Invalid JSON: missing required keys " ++ pySetRepr expected_keys

/-- Payload returned when a required top-level key is missing
(source lines 270-273). -/
def missingKeysPayload (data : Json) : Json :=
  Json.obj [("error", Json.str missingKeysMsg), ("raw", data)]

/-- Payload returned when `line_items` is not a list (source line 276). -/
def wrongTypePayload (data : Json) : Json :=
  Json.obj [("error", Json.str "line_items must be a list"), ("raw", data)]

/-- The error message of source line 281, interpolating the offending line
item (Python renders the dict with `repr`; the JSON rendering is used
here, which no claim depends on). -/
def badLiMsg (li : Json) : String :=
  "Invalid line_item format " ++ Json.dumps li ++ ". Must include item, price, and category."

/-- Payload returned for a line item missing a required key
(source lines 280-284). -/
def badLiPayload (li data : Json) : Json :=
  Json.obj [("error", Json.str (badLiMsg li)), ("raw", data)]

/-- Payload returned when `json.loads` raises `JSONDecodeError`
(source lines 290-294). -/
def malformedPayload (structured_json : String) : Json :=
  Json.obj [("error", Json.str "Invalid JSON received from LLM"),
            ("raw", Json.str structured_json)]

/-- The `try` body of `append_to_sheet` after a successful parse
(source lines 267-288): validate the keys, the type of `line_items` and the
line-item keys in order, short-circuiting with the corresponding error
payload, then call `SheetsTool.append_receipt`.  `.error` carries an
exception escaping the body into the generic `except` clause. -/
def append_to_sheet_body (data : Json) (sheet : List (List Json)) :
    Except String (Json × List (List Json)) :=
  match pyAllKeysIn data with
  | .error e => .error e
  | .ok false => .ok (missingKeysPayload data, sheet)
  | .ok true =>
    match pySubscript data "line_items" with
    | .error e => .error e
    | .ok liv =>
      match liv with
      | .arr items =>
        match firstBadItem items with
        | .error e => .error e
        | .ok (some li) => .ok (badLiPayload li data, sheet)
        | .ok none =>
          match append_receipt data sheet with
          | .error e => .error e
          | .ok (sheet1, result) => .ok (result, sheet1)
      | _ => .ok (wrongTypePayload data, sheet)

/-- `append_to_sheet` (source lines 250-299), at the payload level.
`parsed` is the outcome of `json.loads structured_json` (`none` models a
`JSONDecodeError`).  Returns the payload that the tool serializes, together
with the sheet state after the call. -/
def append_to_sheet_core (structured_json : String) (parsed : Option Json)
    (sheet : List (List Json)) : Json × List (List Json) :=
  match parsed with
  | none => (malformedPayload structured_json, sheet)
  | some data =>
    match append_to_sheet_body data sheet with
    | .ok r => r
    | .error e =>
      (Json.obj [("error", Json.str e), ("raw", Json.str structured_json)], sheet)

/-- The `append_to_sheet` tool as the orchestrating agent sees it: the
serialized payload string and the new sheet state. -/
def append_to_sheet (structured_json : String) (parsed : Option Json)
    (sheet : List (List Json)) : String × List (List Json) :=
  (Json.dumps (append_to_sheet_core structured_json parsed sheet).1,
   (append_to_sheet_core structured_json parsed sheet).2)

/-! ## The other tools, source lines 182-209, 211-247, 302-357 -/

/-- `extract_receipt_text` (source lines 182-209).  `image_bytes` models the
outcome of `load_image_as_base64` (the file read may raise) and `oracle`
the text extracted from the Gemini response by `parse_response` (the model
call may raise). -/
def extract_receipt_text (image_bytes : Except String String)
    (oracle : Except String String) : String :=
  match image_bytes with
  | .error e => Json.dumps (Json.obj [("error", Json.str e)])
  | .ok _ =>
    match oracle with
    | .error e => Json.dumps (Json.obj [("error", Json.str e)])
    | .ok text => Json.dumps (Json.obj [("raw_text", Json.str text)])

/-- `structure_receipt_text` (source lines 211-247): load the categories
(which may bootstrap the store or raise), call the model, and return
`parse_response(response)` verbatim — the success path performs no JSON
serialization of its own.  `oracle` models the model call. -/
def structure_receipt_text (raw_text : String) (oracle : Except String String)
    (s : Store) : String × Store :=
  match load_categories s with
  | .error e => (Json.dumps (Json.obj [("error", Json.str e)]), s)
  | .ok (_, s1) =>
    match oracle with
    | .error e => (Json.dumps (Json.obj [("error", Json.str e)]), s1)
    | .ok text => (text, s1)

/-- `add_category` (source lines 302-329) at the payload level: load the
categories, test `new_category not in categories` with no normalization of
any kind, and either append-and-save or report `exists`. -/
def addCategoryCore (new_category : String) (s : Store) : Json × Store :=
  match load_categories s with
  | .error e => (Json.obj [("error", Json.str e)], s)
  | .ok (categories, s1) =>
    match pyStrInValue new_category categories with
    | .error e => (Json.obj [("error", Json.str e)], s1)
    | .ok true =>
      (Json.obj [("status", Json.str "exists"), ("categories", categories)], s1)
    | .ok false =>
      match categories with
      | .arr xs =>
        (Json.obj [("status", Json.str "added"),
                   ("categories", Json.arr (xs ++ [Json.str new_category]))],
         save_categories (Json.arr (xs ++ [Json.str new_category])))
      | _ => (Json.obj [("error", Json.str "AttributeError: object has no attribute append")], s1)

/-- The `add_category` tool: serialized payload and new store state. -/
def add_category (new_category : String) (s : Store) : String × Store :=
  (Json.dumps (addCategoryCore new_category s).1, (addCategoryCore new_category s).2)

/-- `remove_category` (source lines 331-357) at the payload level. -/
def removeCategoryCore (category : String) (s : Store) : Json × Store :=
  match load_categories s with
  | .error e => (Json.obj [("error", Json.str e)], s)
  | .ok (categories, s1) =>
    match pyStrInValue category categories with
    | .error e => (Json.obj [("error", Json.str e)], s1)
    | .ok true =>
      match categories with
      | .arr xs =>
        (Json.obj [("status", Json.str "removed"),
                   ("categories", Json.arr (pyListRemoveStr xs category))],
         save_categories (Json.arr (pyListRemoveStr xs category)))
      | _ => (Json.obj [("error", Json.str "AttributeError: object has no attribute remove")], s1)
    | .ok false =>
      (Json.obj [("status", Json.str "not_found"), ("categories", categories)], s1)

/-- The `remove_category` tool: serialized payload and new store state. -/
def remove_category (category : String) (s : Store) : String × Store :=
  (Json.dumps (removeCategoryCore category s).1, (removeCategoryCore category s).2)

/-! ## Claim-side vocabulary -/

/-- The value `li.get(k, "")` takes on a line item (shorthand used to state
properties about the rows the source builds). -/
def liGet (li : Json) (k : String) : Json :=
  match li with
  | .obj lf => (lf.lookup k).getD (Json.str "")
  | _ => Json.str ""

/-- The spreadsheet row built for one line item of a record with the given
top-level fields: `[date, vendor, item, price, category]`. -/
def rowOf (fields : List (String × Json)) (li : Json) : List Json :=
  [(fields.lookup "date").getD (Json.str ""),
   (fields.lookup "vendor").getD (Json.str ""),
   liGet li "item", liGet li "price", liGet li "category"]

/-- Whether a JSON value is a negative number (the price shape the merge
rule of the specification talks about). -/
def isNegativePrice (j : Json) : Bool :=
  match j with
  | .num n => decide (n < 0)
  | _ => false

/-- The success payload `{"status": "success", "rows_added": n}`. -/
def successPayload (n : Nat) : Json :=
  Json.obj [("status", Json.str "success"), ("rows_added", Json.num (Int.ofNat n))]

/-- A string that is the serialization of some JSON object. -/
def IsJsonObjString (out : String) : Prop :=
  ∃ fs, out = Json.dumps (Json.obj fs)

/-- A string that is the serialization of a JSON object carrying an
`error` field. -/
def IsJsonErrorString (out : String) : Prop :=
  ∃ fs, out = Json.dumps (Json.obj fs) ∧ (List.lookup "error" fs).isSome = true

/-- The fixed default category set exactly as the specification lists it
(to be compared against what the code bootstraps). -/
def specDefaultCategories : Json :=
  Json.arr [Json.str "Snacks", Json.str "Vegetables", Json.str "Meat", Json.str "Clothes",
            Json.str "Makeup/Skincare", Json.str "Condiments", Json.str "Dairy",
            Json.str "Beverages", Json.str "Bakery"]

/-! ## Helper lemmas -/

theorem pyAllKeysInAux_obj (fields : List (String × Json)) (ks : List String) :
    pyAllKeysInAux (Json.obj fields) ks = .ok (ks.all fun k => (fields.lookup k).isSome) := by
  induction ks with
  | nil => rfl
  | cons k rest ih =>
    simp only [pyAllKeysInAux, pyContainsKey, List.all_cons]
    cases hk : (fields.lookup k).isSome
    · simp
    · simp [ih]

theorem pyAllKeysInAux_arr (xs : List Json) (ks : List String) :
    pyAllKeysInAux (Json.arr xs) ks = .ok (ks.all fun k => xs.any (isStrVal k)) := by
  induction ks with
  | nil => rfl
  | cons k rest ih =>
    simp only [pyAllKeysInAux, pyContainsKey, List.all_cons]
    cases hk : xs.any (isStrVal k)
    · simp
    · simp [ih]

theorem pyAllKeysInAux_str (t : String) (ks : List String) :
    pyAllKeysInAux (Json.str t) ks = .ok (ks.all fun k => pyStrContains t k) := by
  induction ks with
  | nil => rfl
  | cons k rest ih =>
    simp only [pyAllKeysInAux, pyContainsKey, List.all_cons]
    cases hk : pyStrContains t k
    · simp
    · simp [ih]

theorem firstBadItem_of_all (items : List Json)
    (h : ∀ li ∈ items, lineItemHasKeys li = true) :
    firstBadItem items = .ok none := by
  induction items with
  | nil => rfl
  | cons li rest ih =>
    have hli := h li (List.mem_cons_self li rest)
    have hrest := ih fun li2 hm => h li2 (List.mem_cons_of_mem _ hm)
    cases li with
    | obj lf =>
      have hk : (lineItemKeys.all fun k => (lf.lookup k).isSome) = true := hli
      simp [firstBadItem, hk, hrest]
    | null => simp [lineItemHasKeys] at hli
    | bool b => simp [lineItemHasKeys] at hli
    | num n => simp [lineItemHasKeys] at hli
    | str t => simp [lineItemHasKeys] at hli
    | arr xs => simp [lineItemHasKeys] at hli

theorem all_of_firstBadItem (items : List Json)
    (h : firstBadItem items = .ok none) :
    ∀ li ∈ items, lineItemHasKeys li = true := by
  induction items with
  | nil => intro li hm; cases hm
  | cons li rest ih =>
    intro li2 hm
    cases li with
    | obj lf =>
      by_cases hk : (lineItemKeys.all fun k => (lf.lookup k).isSome) = true
      · rcases List.mem_cons.mp hm with h2 | h2
        · subst h2; exact hk
        · exact ih (by simpa [firstBadItem, hk] using h) li2 h2
      · simp [firstBadItem, hk] at h
    | null => simp [firstBadItem] at h
    | bool b => simp [firstBadItem] at h
    | num n => simp [firstBadItem] at h
    | str t => simp [firstBadItem] at h
    | arr xs => simp [firstBadItem] at h

theorem buildRows_of_all (date vendor : Json) (items : List Json)
    (h : ∀ li ∈ items, lineItemHasKeys li = true) :
    buildRows date vendor items
      = .ok (items.map fun li =>
          [date, vendor, liGet li "item", liGet li "price", liGet li "category"]) := by
  induction items with
  | nil => rfl
  | cons li rest ih =>
    have hli := h li (List.mem_cons_self li rest)
    have hrest := ih fun li2 hm => h li2 (List.mem_cons_of_mem _ hm)
    cases li with
    | obj lf =>
      simp only [buildRows, pyDictGet, Bind.bind, Except.bind]
      rw [hrest]
      simp [liGet]
    | null => simp [lineItemHasKeys] at hli
    | bool b => simp [lineItemHasKeys] at hli
    | num n => simp [lineItemHasKeys] at hli
    | str t => simp [lineItemHasKeys] at hli
    | arr xs => simp [lineItemHasKeys] at hli

theorem append_receipt_obj (fields : List (String × Json)) (sheet : List (List Json))
    (items : List Json)
    (hlv : fields.lookup "line_items" = some (Json.arr items))
    (h : ∀ li ∈ items, lineItemHasKeys li = true) :
    append_receipt (Json.obj fields) sheet
      = .ok (sheet ++ items.map (rowOf fields), successPayload items.length) := by
  simp only [append_receipt, pyDictGet, Bind.bind, Except.bind, hlv, Option.getD_some]
  rw [buildRows_of_all _ _ items h]
  simp [successPayload, rowOf]

theorem core_success (sj : String) (fields : List (String × Json)) (items : List Json)
    (sheet : List (List Json))
    (hkeys : (expected_keys.all fun k => (fields.lookup k).isSome) = true)
    (hlv : fields.lookup "line_items" = some (Json.arr items))
    (h : ∀ li ∈ items, lineItemHasKeys li = true) :
    append_to_sheet_core sj (some (Json.obj fields)) sheet
      = (successPayload items.length, sheet ++ items.map (rowOf fields)) := by
  simp only [append_to_sheet_core, append_to_sheet_body, pyAllKeysIn, pyAllKeysInAux_obj,
    hkeys, pySubscript, hlv, firstBadItem_of_all items h,
    append_receipt_obj fields sheet items hlv h]

/-! ## Claim theorems -/

/-- C1: the claim (and the docstring of `SheetsTool.append_receipt`) states
that a negative-priced line item following an emitted row is merged into the
previous row — `[(A, 10), (B, -2)]` should yield one row with price `8` and
`rows_added = 1`.  The code has no merge logic at all: on exactly that
input it emits two rows with the prices unchanged and returns
`rows_added = 2`.  This theorem evaluates the embedded code at the failing
input. -/
theorem C1_code_behavior :
    append_to_sheet_core "raw" (some (Json.obj
      [("vendor", Json.str "V"), ("date", Json.str "D"),
       ("line_items", Json.arr
         [Json.obj [("item", Json.str "A"), ("price", Json.num 10), ("category", Json.str "cat_A")],
          Json.obj [("item", Json.str "B"), ("price", Json.num (-2)), ("category", Json.str "cat_B")]])]))
      []
    = (Json.obj [("status", Json.str "success"), ("rows_added", Json.num 2)],
       [[Json.str "D", Json.str "V", Json.str "A", Json.num 10, Json.str "cat_A"],
        [Json.str "D", Json.str "V", Json.str "B", Json.num (-2), Json.str "cat_B"]]) := by
  rfl

/-- C2: for every validated record with no negative-priced line item,
`append_to_sheet` succeeds with `rows_added` equal to the number of line
items, and the i-th appended row is exactly
`[date, vendor, item_i, price_i, category_i]` taken from the i-th line item
in order. -/
theorem C2_no_negative_rows (sj : String) (fields : List (String × Json))
    (items : List Json) (sheet : List (List Json))
    (hkeys : (expected_keys.all fun k => (fields.lookup k).isSome) = true)
    (hlv : fields.lookup "line_items" = some (Json.arr items))
    (hvalid : ∀ li ∈ items, lineItemHasKeys li = true)
    (hnoneg : ∀ li ∈ items, isNegativePrice (liGet li "price") = false) :
    append_to_sheet_core sj (some (Json.obj fields)) sheet
      = (successPayload items.length, sheet ++ items.map (rowOf fields)) :=
  core_success sj fields items sheet hkeys hlv hvalid

/-- Witness for C2 on a concrete two-item receipt. -/
theorem C2_witness :
    append_to_sheet_core "raw" (some (Json.obj
      [("vendor", Json.str "V"), ("date", Json.str "D"),
       ("line_items", Json.arr
         [Json.obj [("item", Json.str "Milk"), ("price", Json.num 3), ("category", Json.str "Dairy")],
          Json.obj [("item", Json.str "Bread"), ("price", Json.num 2), ("category", Json.str "Bakery")]])]))
      []
    = (successPayload 2,
       [[Json.str "D", Json.str "V", Json.str "Milk", Json.num 3, Json.str "Dairy"],
        [Json.str "D", Json.str "V", Json.str "Bread", Json.num 2, Json.str "Bakery"]]) := by
  have h := C2_no_negative_rows "raw"
    [("vendor", Json.str "V"), ("date", Json.str "D"),
     ("line_items", Json.arr
       [Json.obj [("item", Json.str "Milk"), ("price", Json.num 3), ("category", Json.str "Dairy")],
        Json.obj [("item", Json.str "Bread"), ("price", Json.num 2), ("category", Json.str "Bakery")]])]
    [Json.obj [("item", Json.str "Milk"), ("price", Json.num 3), ("category", Json.str "Dairy")],
     Json.obj [("item", Json.str "Bread"), ("price", Json.num 2), ("category", Json.str "Bakery")]]
    [] (by decide) rfl (by decide) (by decide)
  simpa using h

/-- C3: a validated record whose first line item has a negative price emits
that first item as its own row with the negative price unchanged (there is
no prior row to merge into), and every later item also becomes its own
row. -/
theorem C3_leading_negative (sj : String) (fields : List (String × Json))
    (li0 : Json) (rest : List Json) (sheet : List (List Json))
    (hkeys : (expected_keys.all fun k => (fields.lookup k).isSome) = true)
    (hlv : fields.lookup "line_items" = some (Json.arr (li0 :: rest)))
    (hvalid : ∀ li ∈ li0 :: rest, lineItemHasKeys li = true)
    (hneg : isNegativePrice (liGet li0 "price") = true) :
    append_to_sheet_core sj (some (Json.obj fields)) sheet
      = (successPayload (li0 :: rest).length,
         sheet ++ (rowOf fields li0 :: rest.map (rowOf fields))) := by
  have h := core_success sj fields (li0 :: rest) sheet hkeys hlv hvalid
  simpa using h

/-- Witness for C3: the receipt `[{item: A, price: -5}]` alone yields
exactly one row whose price is `-5`. -/
theorem C3_witness :
    append_to_sheet_core "raw" (some (Json.obj
      [("vendor", Json.str "V"), ("date", Json.str "D"),
       ("line_items", Json.arr
         [Json.obj [("item", Json.str "A"), ("price", Json.num (-5)), ("category", Json.str "cat_A")]])]))
      []
    = (successPayload 1,
       [[Json.str "D", Json.str "V", Json.str "A", Json.num (-5), Json.str "cat_A"]]) := by
  have h := C3_leading_negative "raw"
    [("vendor", Json.str "V"), ("date", Json.str "D"),
     ("line_items", Json.arr
       [Json.obj [("item", Json.str "A"), ("price", Json.num (-5)), ("category", Json.str "cat_A")]])]
    (Json.obj [("item", Json.str "A"), ("price", Json.num (-5)), ("category", Json.str "cat_A")])
    [] [] (by decide) rfl (by decide) (by decide)
  simpa using h

/-- C10: a JSON object with the keys `vendor`, `date` and `line_items`
whose `line_items` is the empty list passes validation, and the tool
returns the serialization of `{"status": "success", "rows_added": 0}` with
the sheet unchanged. -/
theorem C10_empty_receipt (sj : String) (fields : List (String × Json))
    (sheet : List (List Json))
    (hkeys : (expected_keys.all fun k => (fields.lookup k).isSome) = true)
    (hlv : fields.lookup "line_items" = some (Json.arr [])) :
    append_to_sheet sj (some (Json.obj fields)) sheet
      = (Json.dumps (Json.obj [("status", Json.str "success"), ("rows_added", Json.num 0)]),
         sheet) := by
  have h := core_success sj fields [] sheet hkeys hlv (by intro li hm; cases hm)
  simp [append_to_sheet, h, successPayload]

/-- Witness for C10 on a concrete empty receipt. -/
theorem C10_witness :
    append_to_sheet "raw" (some (Json.obj
      [("vendor", Json.str "V"), ("date", Json.str "D"), ("line_items", Json.arr [])])) []
    = (Json.dumps (Json.obj [("status", Json.str "success"), ("rows_added", Json.num 0)]), []) :=
  C10_empty_receipt "raw"
    [("vendor", Json.str "V"), ("date", Json.str "D"), ("line_items", Json.arr [])]
    [] (by decide) rfl

/-- C4 (amended): the validator checks its candidate in order and
short-circuits on the first failure — (1) an input that fails to parse
yields the malformed-JSON error, and a successfully parsed candidate is
never reported as malformed JSON even when it is not an object: the key
check applies the Python `in` test to it (key membership for objects,
element membership for arrays, substring test for strings), failing with
the missing-keys error, whose message names the full expected key set
rather than exactly the missing keys (the amendment), while non-iterable
candidates (numbers, booleans, null) raise a `TypeError` that is caught
into a generic error payload; (2) for an object with all keys present, a
non-list `line_items` yields the wrong-type error, and a non-object
candidate passing the key test fails with a caught `TypeError` at the
`line_items` subscript; (3) otherwise the first line item missing one of
`item`, `price`, `category` yields the bad-line-item error naming that
item; (4) a candidate passing all checks proceeds to the append, which
emits one row per line item. -/
theorem C4_validator_amended (sj : String) (sheet : List (List Json)) :
    (append_to_sheet_core sj none sheet = (malformedPayload sj, sheet))
    ∧ (∀ fields : List (String × Json),
        (expected_keys.all fun k => (fields.lookup k).isSome) = false →
        append_to_sheet_core sj (some (Json.obj fields)) sheet
          = (missingKeysPayload (Json.obj fields), sheet))
    ∧ (∀ (fields : List (String × Json)) (liv : Json),
        (expected_keys.all fun k => (fields.lookup k).isSome) = true →
        fields.lookup "line_items" = some liv →
        (∀ items, liv ≠ Json.arr items) →
        append_to_sheet_core sj (some (Json.obj fields)) sheet
          = (wrongTypePayload (Json.obj fields), sheet))
    ∧ (∀ (fields : List (String × Json)) (items : List Json) (li : Json),
        (expected_keys.all fun k => (fields.lookup k).isSome) = true →
        fields.lookup "line_items" = some (Json.arr items) →
        firstBadItem items = .ok (some li) →
        append_to_sheet_core sj (some (Json.obj fields)) sheet
          = (badLiPayload li (Json.obj fields), sheet))
    ∧ (∀ (fields : List (String × Json)) (items : List Json),
        (expected_keys.all fun k => (fields.lookup k).isSome) = true →
        fields.lookup "line_items" = some (Json.arr items) →
        firstBadItem items = .ok none →
        append_to_sheet_core sj (some (Json.obj fields)) sheet
          = (successPayload items.length, sheet ++ items.map (rowOf fields)))
    ∧ (∀ xs : List Json,
        (expected_keys.all fun k => xs.any (isStrVal k)) = false →
        append_to_sheet_core sj (some (Json.arr xs)) sheet
          = (missingKeysPayload (Json.arr xs), sheet))
    ∧ (∀ xs : List Json,
        (expected_keys.all fun k => xs.any (isStrVal k)) = true →
        append_to_sheet_core sj (some (Json.arr xs)) sheet
          = (Json.obj [("error", Json.str "TypeError: value is not subscriptable by a string"),
                       ("raw", Json.str sj)], sheet))
    ∧ (∀ t : String,
        (expected_keys.all fun k => pyStrContains t k) = false →
        append_to_sheet_core sj (some (Json.str t)) sheet
          = (missingKeysPayload (Json.str t), sheet))
    ∧ (∀ t : String,
        (expected_keys.all fun k => pyStrContains t k) = true →
        append_to_sheet_core sj (some (Json.str t)) sheet
          = (Json.obj [("error", Json.str "TypeError: value is not subscriptable by a string"),
                       ("raw", Json.str sj)], sheet))
    ∧ (∀ n : Int,
        append_to_sheet_core sj (some (Json.num n)) sheet
          = (Json.obj [("error", Json.str "TypeError: argument is not iterable"),
                       ("raw", Json.str sj)], sheet))
    ∧ (∀ b : Bool,
        append_to_sheet_core sj (some (Json.bool b)) sheet
          = (Json.obj [("error", Json.str "TypeError: argument is not iterable"),
                       ("raw", Json.str sj)], sheet))
    ∧ (append_to_sheet_core sj (some Json.null) sheet
        = (Json.obj [("error", Json.str "TypeError: argument is not iterable"),
                     ("raw", Json.str sj)], sheet)) := by
  refine ⟨rfl, ?_, ?_, ?_, ?_, ?_, ?_, ?_, ?_, fun n => rfl, fun b => rfl, rfl⟩
  · intro fields hkeys
    simp only [append_to_sheet_core, append_to_sheet_body, pyAllKeysIn, pyAllKeysInAux_obj,
      hkeys]
  · intro fields liv hkeys hlv hnotarr
    cases liv with
    | arr items => exact absurd rfl (hnotarr items)
    | null =>
      simp only [append_to_sheet_core, append_to_sheet_body, pyAllKeysIn, pyAllKeysInAux_obj,
        hkeys, pySubscript, hlv]
    | bool b =>
      simp only [append_to_sheet_core, append_to_sheet_body, pyAllKeysIn, pyAllKeysInAux_obj,
        hkeys, pySubscript, hlv]
    | num n =>
      simp only [append_to_sheet_core, append_to_sheet_body, pyAllKeysIn, pyAllKeysInAux_obj,
        hkeys, pySubscript, hlv]
    | str t =>
      simp only [append_to_sheet_core, append_to_sheet_body, pyAllKeysIn, pyAllKeysInAux_obj,
        hkeys, pySubscript, hlv]
    | obj fs =>
      simp only [append_to_sheet_core, append_to_sheet_body, pyAllKeysIn, pyAllKeysInAux_obj,
        hkeys, pySubscript, hlv]
  · intro fields items li hkeys hlv hbad
    simp only [append_to_sheet_core, append_to_sheet_body, pyAllKeysIn, pyAllKeysInAux_obj,
      hkeys, pySubscript, hlv, hbad]
  · intro fields items hkeys hlv hnone
    exact core_success sj fields items sheet hkeys hlv (all_of_firstBadItem items hnone)
  · intro xs hkeys
    simp only [append_to_sheet_core, append_to_sheet_body, pyAllKeysIn, pyAllKeysInAux_arr,
      hkeys]
  · intro xs hkeys
    simp only [append_to_sheet_core, append_to_sheet_body, pyAllKeysIn, pyAllKeysInAux_arr,
      hkeys, pySubscript]
  · intro t hkeys
    simp only [append_to_sheet_core, append_to_sheet_body, pyAllKeysIn, pyAllKeysInAux_str,
      hkeys]
  · intro t hkeys
    simp only [append_to_sheet_core, append_to_sheet_body, pyAllKeysIn, pyAllKeysInAux_str,
      hkeys, pySubscript]

/-- C4 counterexample, exhibiting both divergences of the claim from the
code.  First, on the candidate `\x7b"vendor": "V", "date": "D"\x7d` the only
missing key is `line_items`, yet the error message produced by the code
interpolates the whole expected key set — it mentions `vendor` and `date`,
which are present — so the error does not name exactly the missing
key(s).  Second, a candidate that parses as JSON but is not an object is
not reported as malformed JSON as check (1) of the claim requires: a
parsed array gets the missing-keys payload (whose message differs from the
malformed-JSON message), and a parsed number gets a generic payload
derived from a caught `TypeError`. -/
theorem C4_counterexample :
    (append_to_sheet_core "rt" (some (Json.obj [("vendor", Json.str "V"), ("date", Json.str "D")])) []).1
      = missingKeysPayload (Json.obj [("vendor", Json.str "V"), ("date", Json.str "D")])
    ∧ (List.lookup "line_items" [("vendor", Json.str "V"), ("date", Json.str "D")]).isSome = false
    ∧ (List.lookup "vendor" [("vendor", Json.str "V"), ("date", Json.str "D")]).isSome = true
    ∧ (List.lookup "date" [("vendor", Json.str "V"), ("date", Json.str "D")]).isSome = true
    ∧ pyStrContains missingKeysMsg "vendor" = true
    ∧ pyStrContains missingKeysMsg "date" = true
    ∧ (append_to_sheet_core "rt" (some (Json.arr [])) []).1 = missingKeysPayload (Json.arr [])
    ∧ missingKeysMsg ≠ "Invalid JSON received from LLM"
    ∧ (append_to_sheet_core "rt" (some (Json.num 5)) []).1
        = Json.obj [("error", Json.str "TypeError: argument is not iterable"),
                    ("raw", Json.str "rt")] :=
  ⟨rfl, rfl, rfl, rfl, rfl, rfl, rfl, by decide, rfl⟩

/-- Witness for C4 on a concrete candidate missing only `line_items`. -/
theorem C4_witness :
    append_to_sheet_core "x" (some (Json.obj [("vendor", Json.str "V"), ("date", Json.str "D")])) []
      = (missingKeysPayload (Json.obj [("vendor", Json.str "V"), ("date", Json.str "D")]), []) :=
  (C4_validator_amended "x" []).2.1 [("vendor", Json.str "V"), ("date", Json.str "D")] (by decide)

/-- C5: the claim (and the docstring of `add_category`, which says category
names are stored in a normalized, trimmed form) states that `add` first
trims surrounding whitespace from its argument before the membership
check.  The code performs no trimming: with the store holding exactly
`["Dairy"]`, `add_category " Dairy"` appends the untrimmed name and
reports `added`, instead of trimming to `"Dairy"` and reporting `exists`
with the set unchanged.  This theorem evaluates the embedded code at the
failing input. -/
theorem C5_code_behavior :
    addCategoryCore " Dairy" (Store.content (Json.obj [("categories", Json.arr [Json.str "Dairy"])]))
      = (Json.obj [("status", Json.str "added"),
                   ("categories", Json.arr [Json.str "Dairy", Json.str " Dairy"])],
         Store.content (Json.obj [("categories", Json.arr [Json.str "Dairy", Json.str " Dairy"])])) := by
  rfl

/-- C6: saving any category set and loading it back returns the same
elements in the same order. -/
theorem C6_round_trip (cs : List String) :
    load_categories (save_categories (Json.arr (cs.map Json.str)))
      = Except.ok (Json.arr (cs.map Json.str), save_categories (Json.arr (cs.map Json.str))) :=
  rfl

/-- Witness for C6 on a concrete category set. -/
theorem C6_witness :
    load_categories (save_categories (Json.arr (["Snacks", "Dairy"].map Json.str)))
      = Except.ok (Json.arr (["Snacks", "Dairy"].map Json.str),
                   save_categories (Json.arr (["Snacks", "Dairy"].map Json.str))) :=
  C6_round_trip ["Snacks", "Dairy"]

/-- C7: loading against an absent store yields exactly the fixed 9-category
default set the specification lists (Snacks, Vegetables, Meat, Clothes,
Makeup/Skincare, Condiments, Dairy, Beverages, Bakery), persists it, and a
subsequent load returns the identical set with the store unchanged. -/
theorem C7_default_bootstrap :
    load_categories Store.absent
      = Except.ok (specDefaultCategories,
                   Store.content (Json.obj [("categories", specDefaultCategories)]))
    ∧ load_categories (Store.content (Json.obj [("categories", specDefaultCategories)]))
      = Except.ok (specDefaultCategories,
                   Store.content (Json.obj [("categories", specDefaultCategories)])) :=
  ⟨rfl, rfl⟩

/-- C8 (amended): if the store exists but is unreadable (not valid JSON),
`load` fails with the underlying error rather than silently discarding
data; however — the amendment — a store that parses as a JSON object
merely lacking the `categories` key is not treated as corrupt: `load`
silently returns the empty category set for it. -/
theorem C8_amended :
    (∀ msg : String, load_categories (Store.unreadable msg) = Except.error msg)
    ∧ load_categories (Store.content (Json.obj [("Categories", Json.arr [Json.str "Dairy"])]))
      = Except.ok (Json.arr [],
                   Store.content (Json.obj [("Categories", Json.arr [Json.str "Dairy"])])) :=
  ⟨fun _ => rfl, rfl⟩

/-- Witness for C8 at a concrete unreadable store. -/
theorem C8_witness :
    load_categories (Store.unreadable "Expecting value: line 1 column 1") =
      Except.error "Expecting value: line 1 column 1" :=
  C8_amended.1 "Expecting value: line 1 column 1"

/-- C8 counterexample: a store that exists and holds category data under a
miscased key — a document no `save_categories` call ever writes — makes
`load` return the empty category set with no error signalled, contradicting
the claim that no existing-but-corrupt store yields an empty or partial set
silently. -/
theorem C8_counterexample :
    load_categories (Store.content (Json.obj [("Categories", Json.arr [Json.str "Dairy"])]))
      = Except.ok (Json.arr [],
                   Store.content (Json.obj [("Categories", Json.arr [Json.str "Dairy"])]))
    ∧ ∀ categories : Json,
        save_categories categories
          ≠ Store.content (Json.obj [("Categories", Json.arr [Json.str "Dairy"])]) := by
  refine ⟨rfl, ?_⟩
  intro categories h
  simp only [save_categories, Store.content.injEq, Json.obj.injEq, List.cons.injEq,
    Prod.mk.injEq] at h
  exact absurd h.1.1 (by decide)

/-! ## Serializer facts and payload-shape lemmas for C9 -/

theorem natDigits_ne_nil (n : Nat) : natDigits n ≠ [] := by
  unfold natDigits
  split
  · simp
  · simp

theorem natRepr_ne_empty (n : Nat) : natRepr n ≠ "" := by
  intro h
  exact natDigits_ne_nil n (congrArg String.data h)

theorem append_ne_empty_left (a b : String) (ha : a ≠ "") : a ++ b ≠ "" := by
  intro h
  apply ha
  have hl := congrArg String.length h
  rw [String.length_append] at hl
  have h0 : a.length = 0 := by
    have he : String.length "" = 0 := rfl
    omega
  cases a with
  | mk l =>
    cases l with
    | nil => rfl
    | cons c cs => simp [String.length] at h0

/-- No JSON value serializes to the empty string: `json.dumps` always
produces nonempty output. -/
theorem dumps_ne_empty (j : Json) : Json.dumps j ≠ "" := by
  cases j with
  | null => decide
  | bool b => cases b <;> decide
  | num n =>
    cases n with
    | ofNat m => exact natRepr_ne_empty m
    | negSucc m => exact append_ne_empty_left "-" _ (by decide)
  | str s => exact append_ne_empty_left _ _ (append_ne_empty_left "\"" s (by decide))
  | arr xs => exact append_ne_empty_left _ _ (append_ne_empty_left "[" _ (by decide))
  | obj fs => exact append_ne_empty_left _ _ (append_ne_empty_left "\x7b" _ (by decide))

theorem append_receipt_payload_obj (data : Json) (sheet s1 : List (List Json)) (res : Json)
    (h : append_receipt data sheet = .ok (s1, res)) : ∃ fs, res = Json.obj fs := by
  unfold append_receipt at h
  simp only [Bind.bind, Except.bind] at h
  repeat' split at h
  all_goals simp_all
  all_goals exact ⟨_, h.2.symm⟩

theorem append_body_payload_obj (data : Json) (sheet : List (List Json))
    (r : Json × List (List Json))
    (h : append_to_sheet_body data sheet = .ok r) : ∃ fs, r.1 = Json.obj fs := by
  unfold append_to_sheet_body at h
  repeat' split at h
  all_goals cases h
  all_goals try exact ⟨_, rfl⟩
  rename_i sheet1 result heq
  exact append_receipt_payload_obj data sheet sheet1 result heq

theorem addCategoryCore_obj (nc : String) (s : Store) :
    ∃ fs, (addCategoryCore nc s).1 = Json.obj fs := by
  cases hl : load_categories s with
  | error e =>
    simp only [addCategoryCore, hl]
    exact ⟨_, rfl⟩
  | ok p =>
    obtain ⟨cats, s1⟩ := p
    cases hm : pyStrInValue nc cats with
    | error e =>
      simp only [addCategoryCore, hl, hm]
      exact ⟨_, rfl⟩
    | ok b =>
      cases b with
      | true =>
        simp only [addCategoryCore, hl, hm]
        exact ⟨_, rfl⟩
      | false =>
        cases cats <;> (simp only [addCategoryCore, hl, hm]; exact ⟨_, rfl⟩)

theorem removeCategoryCore_obj (c : String) (s : Store) :
    ∃ fs, (removeCategoryCore c s).1 = Json.obj fs := by
  cases hl : load_categories s with
  | error e =>
    simp only [removeCategoryCore, hl]
    exact ⟨_, rfl⟩
  | ok p =>
    obtain ⟨cats, s1⟩ := p
    cases hm : pyStrInValue c cats with
    | error e =>
      simp only [removeCategoryCore, hl, hm]
      exact ⟨_, rfl⟩
    | ok b =>
      cases b with
      | false =>
        simp only [removeCategoryCore, hl, hm]
        exact ⟨_, rfl⟩
      | true =>
        cases cats <;> (simp only [removeCategoryCore, hl, hm]; exact ⟨_, rfl⟩)

/-- C9 (amended): every tool-level operation is total — each internal
failure is materialized as a returned payload, never an escaping
exception — and any modelled internal exception is caught and converted
into the serialization of a JSON object carrying an `error` field: for
`extract_receipt_text` a failing image read or model call; for
`append_to_sheet` a JSON parse failure or any exception escaping its
validation/append body; for `add_category` and `remove_category` a failing
store load, a membership test raising `TypeError`, or a mutation raising
`AttributeError` on a non-list loaded category value; for
`structure_receipt_text` a failing store load or model call.  Every
operation except the success path of `structure_receipt_text` returns the
serialization of a JSON object; `structure_receipt_text` on success
returns the model's text verbatim, which need not be JSON. -/
theorem C9_amended :
    (∀ (image_bytes oracle : Except String String),
        IsJsonObjString (extract_receipt_text image_bytes oracle))
    ∧ (∀ (e : String) (oracle : Except String String),
        IsJsonErrorString (extract_receipt_text (Except.error e) oracle))
    ∧ (∀ (b e : String),
        IsJsonErrorString (extract_receipt_text (Except.ok b) (Except.error e)))
    ∧ (∀ (sj : String) (parsed : Option Json) (sheet : List (List Json)),
        IsJsonObjString (append_to_sheet sj parsed sheet).1)
    ∧ (∀ (sj : String) (sheet : List (List Json)),
        IsJsonErrorString (append_to_sheet sj none sheet).1)
    ∧ (∀ (sj : String) (data : Json) (sheet : List (List Json)) (e : String),
        append_to_sheet_body data sheet = .error e →
        IsJsonErrorString (append_to_sheet sj (some data) sheet).1)
    ∧ (∀ (nc : String) (s : Store), IsJsonObjString (add_category nc s).1)
    ∧ (∀ (nc : String) (s : Store) (m : String),
        load_categories s = .error m →
        IsJsonErrorString (add_category nc s).1)
    ∧ (∀ (nc : String) (s : Store) (cats : Json) (s1 : Store) (m : String),
        load_categories s = .ok (cats, s1) →
        pyStrInValue nc cats = .error m →
        IsJsonErrorString (add_category nc s).1)
    ∧ (∀ (nc : String) (s : Store) (cats : Json) (s1 : Store),
        load_categories s = .ok (cats, s1) →
        pyStrInValue nc cats = .ok false →
        (∀ xs, cats ≠ Json.arr xs) →
        IsJsonErrorString (add_category nc s).1)
    ∧ (∀ (c : String) (s : Store), IsJsonObjString (remove_category c s).1)
    ∧ (∀ (c : String) (s : Store) (m : String),
        load_categories s = .error m →
        IsJsonErrorString (remove_category c s).1)
    ∧ (∀ (c : String) (s : Store) (cats : Json) (s1 : Store) (m : String),
        load_categories s = .ok (cats, s1) →
        pyStrInValue c cats = .error m →
        IsJsonErrorString (remove_category c s).1)
    ∧ (∀ (c : String) (s : Store) (cats : Json) (s1 : Store),
        load_categories s = .ok (cats, s1) →
        pyStrInValue c cats = .ok true →
        (∀ xs, cats ≠ Json.arr xs) →
        IsJsonErrorString (remove_category c s).1)
    ∧ (∀ (raw_text : String) (oracle : Except String String) (s : Store) (m : String),
        load_categories s = .error m →
        IsJsonErrorString (structure_receipt_text raw_text oracle s).1)
    ∧ (∀ (raw_text e : String) (s : Store),
        IsJsonErrorString (structure_receipt_text raw_text (Except.error e) s).1)
    ∧ (∀ (raw_text t : String) (s : Store) (cats : Json) (s1 : Store),
        load_categories s = Except.ok (cats, s1) →
        (structure_receipt_text raw_text (Except.ok t) s).1 = t) := by
  refine ⟨?_, ?_, ?_, ?_, ?_, ?_, ?_, ?_, ?_, ?_, ?_, ?_, ?_, ?_, ?_, ?_, ?_⟩
  · intro ib orc
    cases ib with
    | error e => exact ⟨[("error", Json.str e)], rfl⟩
    | ok b =>
      cases orc with
      | error e => exact ⟨[("error", Json.str e)], rfl⟩
      | ok t => exact ⟨[("raw_text", Json.str t)], rfl⟩
  · intro e orc
    exact ⟨[("error", Json.str e)], rfl, rfl⟩
  · intro b e
    exact ⟨[("error", Json.str e)], rfl, rfl⟩
  · intro sj parsed sheet
    cases parsed with
    | none => exact ⟨_, rfl⟩
    | some data =>
      cases hb : append_to_sheet_body data sheet with
      | error e =>
        refine ⟨[("error", Json.str e), ("raw", Json.str sj)], ?_⟩
        simp only [append_to_sheet, append_to_sheet_core, hb]
      | ok r =>
        obtain ⟨fs, hfs⟩ := append_body_payload_obj data sheet r hb
        refine ⟨fs, ?_⟩
        simp only [append_to_sheet, append_to_sheet_core, hb, hfs]
  · intro sj sheet
    exact ⟨[("error", Json.str "Invalid JSON received from LLM"), ("raw", Json.str sj)],
           rfl, rfl⟩
  · intro sj data sheet e hb
    refine ⟨[("error", Json.str e), ("raw", Json.str sj)], ?_, rfl⟩
    simp only [append_to_sheet, append_to_sheet_core, hb]
  · intro nc s
    obtain ⟨fs, hfs⟩ := addCategoryCore_obj nc s
    refine ⟨fs, ?_⟩
    simp only [add_category, hfs]
  · intro nc s m hl
    refine ⟨[("error", Json.str m)], ?_, rfl⟩
    simp only [add_category, addCategoryCore, hl]
  · intro nc s cats s1 m hl hm
    refine ⟨[("error", Json.str m)], ?_, rfl⟩
    simp only [add_category, addCategoryCore, hl, hm]
  · intro nc s cats s1 hl hm hna
    refine ⟨[("error", Json.str "AttributeError: object has no attribute append")], ?_, rfl⟩
    cases cats with
    | arr xs => exact absurd rfl (hna xs)
    | null => simp only [add_category, addCategoryCore, hl, hm]
    | bool b => simp only [add_category, addCategoryCore, hl, hm]
    | num n => simp only [add_category, addCategoryCore, hl, hm]
    | str t => simp only [add_category, addCategoryCore, hl, hm]
    | obj fields => simp only [add_category, addCategoryCore, hl, hm]
  · intro c s
    obtain ⟨fs, hfs⟩ := removeCategoryCore_obj c s
    refine ⟨fs, ?_⟩
    simp only [remove_category, hfs]
  · intro c s m hl
    refine ⟨[("error", Json.str m)], ?_, rfl⟩
    simp only [remove_category, removeCategoryCore, hl]
  · intro c s cats s1 m hl hm
    refine ⟨[("error", Json.str m)], ?_, rfl⟩
    simp only [remove_category, removeCategoryCore, hl, hm]
  · intro c s cats s1 hl hm hna
    refine ⟨[("error", Json.str "AttributeError: object has no attribute remove")], ?_, rfl⟩
    cases cats with
    | arr xs => exact absurd rfl (hna xs)
    | null => simp only [remove_category, removeCategoryCore, hl, hm]
    | bool b => simp only [remove_category, removeCategoryCore, hl, hm]
    | num n => simp only [remove_category, removeCategoryCore, hl, hm]
    | str t => simp only [remove_category, removeCategoryCore, hl, hm]
    | obj fields => simp only [remove_category, removeCategoryCore, hl, hm]
  · intro raw_text orc s m hl
    refine ⟨[("error", Json.str m)], ?_, rfl⟩
    simp only [structure_receipt_text, hl]
  · intro raw_text e s
    cases hl : load_categories s with
    | error e2 =>
      refine ⟨[("error", Json.str e2)], ?_, rfl⟩
      simp only [structure_receipt_text, hl]
    | ok p =>
      obtain ⟨cats, s1⟩ := p
      refine ⟨[("error", Json.str e)], ?_, rfl⟩
      simp only [structure_receipt_text, hl]
  · intro raw_text t s cats s1 hl
    simp only [structure_receipt_text, hl]

/-- Witness for C9 on a concrete successful `structure_receipt_text` call. -/
theorem C9_witness :
    (structure_receipt_text "receipt" (Except.ok "model output")
        (Store.content (Json.obj [("categories", Json.arr [])]))).1 = "model output" :=
  C9_amended.2.2.2.2.2.2.2.2.2.2.2.2.2.2.2.2 "receipt" "model output"
    (Store.content (Json.obj [("categories", Json.arr [])])) (Json.arr [])
    (Store.content (Json.obj [("categories", Json.arr [])])) rfl

/-- C9 counterexample: when the model produces no text (an entirely
realistic response), `structure_receipt_text` returns that text verbatim —
the empty string — and the empty string is not the serialization of any
JSON value, so not every tool-level operation returns a JSON string as the
claim states. -/
theorem C9_counterexample :
    (structure_receipt_text "receipt" (Except.ok "") Store.absent).1 = ""
    ∧ ∀ j : Json, Json.dumps j ≠ "" :=
  ⟨rfl, dumps_ne_empty⟩

end ReceiptOcr
